import Mathlib

/-!
Shallow embedding of the two example programs of the parsentry repository:
`src/example/c-vulnerable-app/main.c` (the C app) and
`src/example/cpp-vulnerable-app/main.cpp` (the C++ app).

C/C++ byte strings are modelled as `List Char`; machine integers as `Nat`,
reduced modulo `2 ^ 64` exactly where the source's `size_t` arithmetic wraps.
Functions whose only observable behaviour is what they print or copy are
modelled by that observable (e.g. `unsafe_string_copy` returns the number of
bytes its `strcpy` writes). `system()` and `printf` are external primitives
the programs call; their relevant semantics (the shell splitting a command
line at `;`, printf interpreting `%` directives) are modelled explicitly so
that the programs' use of them can be reasoned about.
-/

/-! ### Constants of the C app (main.c) -/

/-- MAX_COMMAND_SIZE from main.c line 9: the stack buffer `full_command` in
`execute_system_command` holds 256 bytes. -/
def MAX_COMMAND_SIZE : Nat := 256

/-- The global `admin_password` from main.c line 12. It is initialized to
"admin123" and never reassigned anywhere in the program. -/
def admin_password : List Char := "admin123".data

/-- Capacity of the stack buffer `buffer[100]` in `unsafe_string_copy`
(main.c line 17). -/
def unsafe_copy_capacity : Nat := 100

/-- One past the largest value of the 64-bit `size_t`: unsigned arithmetic on
`size_t` wraps modulo this. -/
def SIZE_T_MOD : Nat := 2 ^ 64

/-- ULLONG_MAX, the largest `unsigned long long` value on the 64-bit
platform; `std::stoull` throws `std::out_of_range` above it. -/
def ULLONG_MAX : Nat := 2 ^ 64 - 1

/-! ### C string primitives used by the programs -/

/-- Result of C `strcmp` viewed as an equality test: `strcmp a b == 0`
exactly when the two byte strings are equal. The recursion mirrors strcmp's
loop: compare bytes until a difference or the terminating NUL. -/
def strcmpEq : List Char → List Char → Bool
  | [], [] => true
  | [], _ :: _ => false
  | _ :: _, [] => false
  | a :: as, b :: bs => if a = b then strcmpEq as bs else false

/-- Number of byte comparisons C `strcmp` performs: it compares position by
position and returns at the first differing byte (or at the NUL ending the
shorter string), so the final compared position counts as one step. -/
def strcmpSteps : List Char → List Char → Nat
  | [], [] => 1
  | [], _ :: _ => 1
  | _ :: _, [] => 1
  | a :: as, b :: bs => if a = b then 1 + strcmpSteps as bs else 1

/-- Length of the longest common prefix of two byte strings (specification
device used to describe where strcmp stops). -/
def commonPrefixLen : List Char → List Char → Nat
  | a :: as, b :: bs => if a = b then 1 + commonPrefixLen as bs else 0
  | _, _ => 0

/-! ### The C app's functions (main.c) -/

/-- unsafe_string_copy (main.c lines 16-20) runs
`strcpy(buffer, input)` into the 100-byte stack buffer. strcpy copies the
whole input plus its terminating NUL whatever the destination size; the model
returns the number of bytes written into the 100-byte buffer. -/
def unsafe_string_copy (input : List Char) : Nat := input.length + 1

/-- The argument branch of C main (main.c lines 126-129): `argv[1]` is passed
to `unsafe_string_copy` exactly when `strlen(argv[1]) > 100`. Returns the
number of bytes that branch copies, none when the branch is not taken. -/
def mainArgCopiesBytes (arg : List Char) : Option Nat :=
  if 100 < arg.length then some (unsafe_string_copy arg) else none

/-- execute_system_command (main.c lines 30-34):
`sprintf(full_command, "echo %s", command); system(full_command);`.
The model returns the command line handed to `system()`: the 5 bytes of
"echo ", the payload, and the NUL must fit the 256-byte `full_command`
buffer; a longer payload overflows it (undefined behaviour), modelled as
`none`. -/
def execute_system_command (command : List Char) : Option (List Char) :=
  if 5 + command.length + 1 ≤ MAX_COMMAND_SIZE then some ("echo ".data ++ command)
  else none

/-- authenticate_user (main.c lines 71-77): returns 1 when
`strcmp(username, "admin") == 0 && strcmp(password, admin_password) == 0`,
and 0 otherwise. `admin_password` is the global of main.c line 12. -/
def authenticate_user (username password : List Char) : Nat :=
  if strcmpEq username "admin".data && strcmpEq password admin_password then 1
  else 0

/-- Number of byte comparisons `authenticate_user` spends on the password
once the username test has already passed (username = "admin"): the second
`strcmp` of main.c line 73, against `admin_password`. -/
def authenticate_user_passwordSteps (password : List Char) : Nat :=
  strcmpSteps password admin_password

/-- A filesystem, for modelling `fopen`/`std::ifstream`: maps a path to the
content of the file at that path, `none` when opening fails. -/
def FileSystem : Type := List Char → Option (List Char)

/-- read_config_file (main.c lines 98-110): `fopen(filename, "r")` on the
given name with no validation whatsoever, then prints every line. The model
returns the content printed, `none` when `fopen` fails. -/
def read_config_file (fs : FileSystem) (filename : List Char) : Option (List Char) :=
  fs filename

/-- allocate_memory (main.c lines 37-47): for `size > 0` calls
`malloc(size * sizeof(char))`. `size` is an `unsigned int` widened to
`size_t` and `sizeof(char) = 1`, so the product is computed in `size_t`
arithmetic (wrapping modulo `2 ^ 64`, though this particular product cannot
exceed it). Returns the byte count requested from malloc, none when
`size = 0` and no allocation happens. -/
def allocate_memory (size : Nat) : Option Nat :=
  if 0 < size then some (size * 1 % SIZE_T_MOD) else none

/-! ### External primitive models: the shell, echo, printf -/

/-- Model of `/bin/sh -c` splitting a command line into the commands it
executes in sequence: the line is cut at every `;` (the programs' command
strings use no quoting, so each `;` is a command separator to the shell).
`acc` holds the current command's bytes in reverse. -/
def splitSemisAux : List Char → List Char → List (List Char)
  | acc, [] => [acc.reverse]
  | acc, c :: rest =>
    if c = ';' then acc.reverse :: splitSemisAux [] rest
    else splitSemisAux (c :: acc) rest

/-- The list of commands the shell runs for a command line passed to
`system()`. -/
def shellCommands (cmdline : List Char) : List (List Char) :=
  splitSemisAux [] cmdline

/-- Output of a shell command of the shape `echo <text>`: echo writes its
argument text (the bytes after the 5 bytes of "echo "). -/
def echoOutput (cmd : List Char) : List Char := cmd.drop 5

/-- What `printf` writes when the given bytes are its FORMAT string and no
variadic argument was passed, as in `printf(user_input)`: ordinary bytes are
written through; the directive `%%` writes one `%`; any other `%` directive
consumes a variadic argument that was never passed, which is undefined
behaviour in C. -/
inductive PrintfOutput where
  | ok (bytes : List Char)
  | undefinedBehavior
deriving DecidableEq

/-- printf writing one byte and then continuing: undefined behaviour stays
undefined behaviour. -/
def PrintfOutput.consByte (c : Char) : PrintfOutput → PrintfOutput
  | .ok bs => .ok (c :: bs)
  | .undefinedBehavior => .undefinedBehavior

/-- Interpretation of a format string by printf with no variadic arguments;
see `PrintfOutput`. -/
def printfNoArgs : List Char → PrintfOutput
  | [] => .ok []
  | c :: rest =>
    if c = '%' then
      match rest with
      | [] => .undefinedBehavior
      | d :: rest2 =>
        if d = '%' then PrintfOutput.consByte '%' (printfNoArgs rest2)
        else .undefinedBehavior
    else PrintfOutput.consByte c (printfNoArgs rest)

/-- log_message (main.c lines 23-27): `printf("Log: "); printf(user_input);
printf("\n");` — the payload itself is the format string of the middle
printf. The model returns the bytes that printf writes for the payload. -/
def log_message (user_input : List Char) : PrintfOutput :=
  printfNoArgs user_input

/-! ### The C++ app's functions (main.cpp) -/

/-- WebServer::executeSystemCommand (main.cpp lines 66-69):
`std::string command = "echo " + cmd; std::system(command.c_str());`.
Returns the command line handed to `std::system` (no length limit here:
std::string grows). -/
def executeSystemCommand (cmd : List Char) : List Char :=
  "echo ".data ++ cmd

/-- WebServer::readFile (main.cpp lines 72-82): `std::ifstream file(filename)`
with no validation; returns the whole content, or the literal string
"File not found" when the open fails. -/
def readFile (fs : FileSystem) (filename : List Char) : List Char :=
  match fs filename with
  | some content => content
  | none => "File not found".data

/-- WebServer::logMessage (main.cpp lines 92-95): `printf(message.c_str())` —
the message is the format string, exactly as in the C app's `log_message`. -/
def logMessage (message : List Char) : PrintfOutput :=
  printfNoArgs message

/-- WebServer::allocateBuffer (main.cpp lines 104-111): for `size > 0`
computes `size_t total_size = size * sizeof(char) * 2` — `size_t`
multiplication, which wraps modulo `2 ^ 64` — and allocates `total_size`
bytes with `new char[total_size]`, with no overflow check. Returns the
allocated byte count, none when `size = 0` and nothing is allocated. -/
def allocateBuffer (size : Nat) : Option Nat :=
  if 0 < size then some (size * 1 * 2 % SIZE_T_MOD) else none

/-- Result of `std::stoull`: the parsed value, or the exception it throws
(`std::invalid_argument` when no digits are found, `std::out_of_range` when
the value exceeds ULLONG_MAX). -/
inductive StoullResult where
  | ok (value : Nat)
  | invalidArgumentThrown
  | outOfRangeThrown
deriving DecidableEq

/-- The longest leading run of decimal digits of a byte string. -/
def leadingDigits : List Char → List Char
  | [] => []
  | c :: rest => if c.isDigit then c :: leadingDigits rest else []

/-- Numeric value of a digit string, most significant digit first. -/
def digitsToNat (ds : List Char) : Nat :=
  ds.foldl (fun acc c => acc * 10 + (c.toNat - 48)) 0

/-- `std::stoull` on an input that carries no leading whitespace or sign (the
only shape the C++ app's alloc: payloads take): the longest leading digit run
is converted; no digits throws `std::invalid_argument`; a value above
ULLONG_MAX throws `std::out_of_range`. -/
def stoull (s : List Char) : StoullResult :=
  if leadingDigits s = [] then .invalidArgumentThrown
  else if digitsToNat (leadingDigits s) ≤ ULLONG_MAX then
    .ok (digitsToNat (leadingDigits s))
  else .outOfRangeThrown

/-- Outcome of the C++ app's alloc: handling for one input line. `std::stoull`
throwing is fatal: `main` (main.cpp lines 185-281) contains no try/catch, so
a thrown exception reaches `std::terminate` and aborts the program. -/
inductive AllocOutcome where
  | allocated (bytes : Nat)
  | terminatedUnhandledException
  | noAllocation
deriving DecidableEq

/-- The alloc: branch body of C++ main (main.cpp lines 228-231):
`size_t size = std::stoull(user_input.substr(6)); server.allocateBuffer(size);`
with no surrounding try/catch. -/
def cppMainAllocBranch (payload : List Char) : AllocOutcome :=
  match stoull payload with
  | .ok v =>
    match allocateBuffer v with
    | some bytes => .allocated bytes
    | none => .noAllocation
  | _ => .terminatedUnhandledException

/-- The alloc: dispatch of C++ main (main.cpp line 228):
`user_input.substr(0, 6) == "alloc:"` guards the branch (an alloc: input
matches none of the exec:/file:/db: guards before it). -/
def cppMainOnInput (input : List Char) : AllocOutcome :=
  if input.take 6 = "alloc:".data then cppMainAllocBranch (input.drop 6)
  else .noAllocation

/-! ### VulnerableDatabase (main.cpp) -/

/-- Bool test that `pat` is a prefix of `text`, byte by byte. -/
def isPrefixList : List Char → List Char → Bool
  | [], _ => true
  | _ :: _, [] => false
  | a :: as, b :: bs => a = b && isPrefixList as bs

/-- `std::string::find`: the first index at which `pat` occurs in `text`,
`none` standing for `std::string::npos` (not found). An empty pattern is
found at index 0. -/
def strFind (pat : List Char) : List Char → Option Nat
  | [] => if isPrefixList pat [] then some 0 else none
  | c :: rest =>
    if isPrefixList pat (c :: rest) then some 0
    else (strFind pat rest).map (· + 1)

/-- The SQL text VulnerableDatabase::searchUsers concatenates (main.cpp line
24): `"SELECT * FROM users WHERE name = '" + query + "'"`. It is printed on
line 25 and never handed to anything that executes SQL. -/
def searchUsersSql (query : List Char) : List Char :=
  "SELECT * FROM users WHERE name = '".data ++ query ++ "'".data

/-- VulnerableDatabase::searchUsers (main.cpp lines 20-34): builds the SQL
text by concatenation (printed, never executed), then scans the in-memory
`users` vector in order, pushing back every user whose text contains the
query (`user.find(query) != std::string::npos`). Returns the SQL text it
built and the results vector. -/
def searchUsers (users : List (List Char)) (query : List Char) :
    List Char × List (List Char) :=
  (searchUsersSql query,
   users.foldl
     (fun results u => if (strFind query u).isSome then results ++ [u] else results)
     [])

/-- VulnerableDatabase::getUserData (main.cpp lines 42-47): for
`index >= 0 && index < users.size()` returns a freshly made copy
(`std::make_shared<std::string>(users[index])`) of the string at `index`,
and `nullptr` (modelled `none`) otherwise. `index` is a C `int`, modelled as
`Int`; the `<` against `users.size()` converts it to `size_t`, which is safe
because the `&&` has already established `index >= 0`. -/
def getUserData (users : List (List Char)) (index : Int) : Option (List Char) :=
  if h : 0 ≤ index ∧ index < (users.length : Int) then
    some (users.get ⟨index.toNat, by omega⟩)
  else none

/-! ### Concrete inputs used to exercise the definitions -/

/-- A filesystem on which the classic traversal target exists: the path
`../../etc/passwd` (relative to the app's working directory) resolves to the
system password file, which lies outside any configured root. -/
def passwdFs : FileSystem :=
  fun p => if p = "../../etc/passwd".data then some "root:x:0:0:root".data else none

/-- A 150-byte command-line argument, longer than `unsafe_string_copy`'s
100-byte buffer. -/
def longArg : List Char := List.replicate 150 'a'

/-! ### Helper lemmas -/

/-- strcmp, read as an equality test, decides equality of byte strings. -/
theorem strcmpEq_iff (a b : List Char) : strcmpEq a b = true ↔ a = b := by
  induction a generalizing b with
  | nil => cases b <;> simp [strcmpEq]
  | cons x xs ih =>
    cases b with
    | nil => simp [strcmpEq]
    | cons y ys =>
      by_cases h : x = y
      · simp [strcmpEq, h, ih]
      · simp [strcmpEq, h]

/-- strcmp stops right after the longest common prefix: its comparison count
is that prefix's length plus the one final, deciding comparison. -/
theorem strcmpSteps_eq (a b : List Char) :
    strcmpSteps a b = commonPrefixLen a b + 1 := by
  induction a generalizing b with
  | nil => cases b <;> simp [strcmpSteps, commonPrefixLen]
  | cons x xs ih =>
    cases b with
    | nil => simp [strcmpSteps, commonPrefixLen]
    | cons y ys =>
      by_cases h : x = y
      · simp only [strcmpSteps, commonPrefixLen, if_pos h, ih]; omega
      · simp [strcmpSteps, commonPrefixLen, h]

/-- The shell executes one command more than the number of semicolons in the
command line. -/
theorem splitSemisAux_length (l acc : List Char) :
    (splitSemisAux acc l).length = l.count ';' + 1 := by
  induction l generalizing acc with
  | nil => simp [splitSemisAux]
  | cons c rest ih =>
    by_cases h : c = ';'
    · simp [splitSemisAux, h, ih, List.count_cons]
    · simp [splitSemisAux, h, ih, List.count_cons]

/-- A format string free of `%` is written through by printf unchanged. -/
theorem printfNoArgs_no_percent (p : List Char) (h : ∀ c ∈ p, c ≠ '%') :
    printfNoArgs p = .ok p := by
  induction p with
  | nil => rfl
  | cons c rest ih =>
    have hc : c ≠ '%' := h c (by simp)
    have hr : ∀ x ∈ rest, x ≠ '%' := fun x hx => h x (by simp [hx])
    rw [printfNoArgs.eq_def]
    simp [hc, ih hr, PrintfOutput.consByte]

/-- Folding "push if the test passes" over a list from an accumulator is the
accumulator followed by the filtered list. -/
theorem foldl_push_filter {α : Type} (p : α → Bool) (l acc : List α) :
    l.foldl (fun r u => if p u then r ++ [u] else r) acc = acc ++ l.filter p := by
  induction l generalizing acc with
  | nil => simp
  | cons x xs ih =>
    by_cases h : p x
    · simp [List.foldl_cons, h, ih, List.filter_cons]
    · simp [List.foldl_cons, h, ih, List.filter_cons]

/-- `isPrefixList` decides the textbook prefix property. -/
theorem isPrefixList_iff (pat text : List Char) :
    isPrefixList pat text = true ↔ ∃ post, text = pat ++ post := by
  induction pat generalizing text with
  | nil => simp [isPrefixList]
  | cons a as ih =>
    cases text with
    | nil => simp [isPrefixList]
    | cons b bs =>
      simp only [isPrefixList, Bool.and_eq_true, decide_eq_true_eq, ih,
        List.cons_append, List.cons.injEq]
      constructor
      · rintro ⟨rfl, post, rfl⟩
        exact ⟨post, rfl, rfl⟩
      · rintro ⟨post, h1, h2⟩
        exact ⟨h1.symm, post, h2⟩

/-- `strFind` (the model of `std::string::find`) succeeds exactly on the
strings that contain the pattern as a contiguous substring. -/
theorem strFind_isSome_iff (pat text : List Char) :
    (strFind pat text).isSome = true ↔ ∃ pre post, text = pre ++ pat ++ post := by
  induction text with
  | nil =>
    cases pat with
    | nil => simp [strFind, isPrefixList]
    | cons a as => simp [strFind, isPrefixList]
  | cons c rest ih =>
    by_cases hp : isPrefixList pat (c :: rest) = true
    · obtain ⟨post, hpost⟩ := (isPrefixList_iff pat (c :: rest)).1 hp
      simp only [strFind, if_pos hp, Option.isSome_some, true_iff]
      exact ⟨[], post, by simpa using hpost⟩
    · have hmap : (strFind pat (c :: rest)).isSome = (strFind pat rest).isSome := by
        simp [strFind, if_neg hp]
      rw [hmap, ih]
      constructor
      · rintro ⟨pre, post, rfl⟩
        exact ⟨c :: pre, post, rfl⟩
      · rintro ⟨pre, post, hdec⟩
        cases pre with
        | nil =>
          exact absurd ((isPrefixList_iff pat (c :: rest)).2
            ⟨post, by simpa using hdec⟩) hp
        | cons p ps =>
          injection hdec with h1 h2
          exact ⟨ps, post, h2⟩

/-- An all-digit string is its own longest leading digit run. -/
theorem leadingDigits_of_digits (s : List Char) (h : ∀ c ∈ s, c.isDigit) :
    leadingDigits s = s := by
  induction s with
  | nil => rfl
  | cons c rest ih =>
    simp [leadingDigits, h c (by simp), ih (fun x hx => h x (by simp [hx]))]

/-! ### Claim C1: command dispatch and shell interpretation -/

/-- C1 counterexample: the claim that an Execute payload is passed as a single
discrete argument with no shell interpretation is false of the code. For the
input "exec:hello; rm -rf /", `execute_system_command` hands `system()` the
line "echo hello; rm -rf /", the shell splits it at the `;` into two
commands, and the echo command prints "hello" — not the literal payload — 
while a second command (rm -rf /) is invoked. -/
theorem C1_counterexample :
    execute_system_command "hello; rm -rf /".data = some "echo hello; rm -rf /".data ∧
    shellCommands "echo hello; rm -rf /".data = ["echo hello".data, " rm -rf /".data] ∧
    echoOutput "echo hello".data = "hello".data ∧
    "hello".data ≠ "hello; rm -rf /".data := by
  refine ⟨by decide, by decide, by decide, by decide⟩

/-- C1 (amended): dispatching an Execute command concatenates the payload
into the shell command line "echo payload" and passes it to system(), which
performs shell interpretation; for every payload that contains a `;` (and
fits the 256-byte sprintf buffer, i.e. has at most 250 bytes), the shell
splits the line into at least two commands, so a second command is
invoked. -/
theorem C1_prop (payload : List Char) (hlen : payload.length ≤ 250)
    (hsemi : ';' ∈ payload) :
    execute_system_command payload = some (executeSystemCommand payload) ∧
    2 ≤ (shellCommands (executeSystemCommand payload)).length := by
  constructor
  · unfold execute_system_command
    rw [if_pos (by simp only [MAX_COMMAND_SIZE]; omega)]
    rfl
  · unfold executeSystemCommand shellCommands
    rw [splitSemisAux_length, List.count_append]
    have hc : 0 < payload.count ';' := List.count_pos_iff.2 hsemi
    omega

/-- C1 witness: the amended statement at the spec's own example payload. -/
theorem C1_witness :
    execute_system_command "hello; rm -rf /".data =
      some (executeSystemCommand "hello; rm -rf /".data) ∧
    2 ≤ (shellCommands (executeSystemCommand "hello; rm -rf /".data)).length :=
  C1_prop "hello; rm -rf /".data (by decide) (by decide)

/-! ### Claim C2: oversized alloc: payloads -/

/-- C2 counterexample: on the input "alloc:99999999999999999999" the C++
app's `std::stoull` throws `std::out_of_range`; main has no handler, so the
program aborts — it does not return a typed MalformedNumber/SizeOutOfRange
error. -/
theorem C2_counterexample :
    stoull "99999999999999999999".data = .outOfRangeThrown ∧
    cppMainOnInput "alloc:99999999999999999999".data = .terminatedUnhandledException := by
  refine ⟨by decide, by decide⟩

/-- C2 (amended): for every all-digit alloc: payload whose value exceeds
ULLONG_MAX, `std::stoull` throws `std::out_of_range` and, main containing no
try/catch, the C++ program terminates on the unhandled exception; no typed
error value is ever produced. -/
theorem C2_prop (payload : List Char) (hne : payload ≠ [])
    (hd : ∀ c ∈ payload, c.isDigit) (hv : ULLONG_MAX < digitsToNat payload) :
    stoull payload = .outOfRangeThrown ∧
    cppMainAllocBranch payload = .terminatedUnhandledException := by
  have hld : leadingDigits payload = payload := leadingDigits_of_digits payload hd
  have hst : stoull payload = .outOfRangeThrown := by
    unfold stoull
    rw [hld, if_neg hne, if_neg (Nat.not_le.2 hv)]
  refine ⟨hst, ?_⟩
  rw [cppMainAllocBranch.eq_def, hst]

set_option maxRecDepth 4000 in
/-- C2 witness: the amended statement at the spec's own example payload. -/
theorem C2_witness :
    stoull "99999999999999999999".data = .outOfRangeThrown ∧
    cppMainAllocBranch "99999999999999999999".data = .terminatedUnhandledException :=
  C2_prop "99999999999999999999".data (by decide) (by decide) (by decide)

/-! ### Claim C3: overflowing allocation sizes -/

/-- C3 counterexample: the claim that an overflowing (size, unit) product
makes validation return an Overflow error and never proceed with a wrapped
product is false: at size = 2^63 the C++ `allocateBuffer` computes
`total_size = size * sizeof(char) * 2` in wrapping size_t arithmetic,
obtains 0, and allocates 0 bytes — it proceeds with the wrapped product
(the true product 2^64 is not 0) and returns no error. -/
theorem C3_counterexample :
    allocateBuffer (2 ^ 63) = some 0 ∧ 2 ^ 63 * 1 * 2 ≠ 0 := by
  refine ⟨by decide, by norm_num⟩

/-- C3 (amended): for every size whose doubling overflows size_t, the C++
`allocateBuffer` performs no validation: it proceeds to allocate the wrapped
product `size * 2 - 2^64`, which differs from the true product, and returns
no error value. -/
theorem C3_prop (size : Nat) (h1 : size < SIZE_T_MOD)
    (h2 : SIZE_T_MOD ≤ size * 2) :
    allocateBuffer size = some (size * 2 - SIZE_T_MOD) ∧
    size * 2 - SIZE_T_MOD ≠ size * 1 * 2 := by
  have hmod : SIZE_T_MOD = 18446744073709551616 := by norm_num [SIZE_T_MOD]
  rw [hmod] at h1 h2
  have hval : size * 1 * 2 % SIZE_T_MOD = size * 2 - SIZE_T_MOD := by
    rw [hmod]
    omega
  constructor
  · unfold allocateBuffer
    rw [if_pos (by omega : 0 < size), hval]
  · rw [hmod]
    omega

/-- C3 witness: the amended statement at the concrete size 2^63, whose true
double is 2^64 but which is allocated as 0 bytes. -/
theorem C3_witness :
    allocateBuffer (2 ^ 63) = some (2 ^ 63 * 2 - SIZE_T_MOD) ∧
    2 ^ 63 * 2 - SIZE_T_MOD ≠ 2 ^ 63 * 1 * 2 :=
  C3_prop (2 ^ 63) (by norm_num [SIZE_T_MOD]) (by norm_num [SIZE_T_MOD])

/-! ### Claim C4: path traversal -/

/-- C4 counterexample: the claim that a path escaping the allowed root is
refused with a PathEscapesRoot error is false: on a filesystem where
`../../etc/passwd` exists, both the C `read_config_file` and the C++
`readFile` open it directly and return its content — the file outside the
root is opened, and no error of any kind is produced. -/
theorem C4_counterexample :
    read_config_file passwdFs "../../etc/passwd".data = some "root:x:0:0:root".data ∧
    readFile passwdFs "../../etc/passwd".data = "root:x:0:0:root".data := by
  refine ⟨by decide, by decide⟩

/-- C4 (amended): neither file-reading routine validates its path at all:
for every filesystem and every candidate path naming an existing file —
escaping any configured root or not — `read_config_file` (C) and `readFile`
(C++) open that very path and return its content. -/
theorem C4_prop (fs : FileSystem) (filename content : List Char)
    (h : fs filename = some content) :
    read_config_file fs filename = some content ∧ readFile fs filename = content := by
  refine ⟨h, ?_⟩
  unfold readFile
  rw [h]

/-- C4 witness: the amended statement at the spec's traversal example. -/
theorem C4_witness :
    read_config_file passwdFs "../../etc/passwd".data = some "root:x:0:0:root".data ∧
    readFile passwdFs "../../etc/passwd".data = "root:x:0:0:root".data :=
  C4_prop passwdFs "../../etc/passwd".data "root:x:0:0:root".data (by decide)

/-! ### Claim C5: bounded ingestion -/

/-- C5 counterexample: the claim that oversized input is rejected with
InputTooLong and never copied beyond max_len is false: for a 150-byte
argument, C main's argument branch calls `unsafe_string_copy`, whose strcpy
writes 151 bytes into the 100-byte buffer, with no error of any kind. -/
theorem C5_counterexample :
    unsafe_string_copy longArg = 151 ∧
    mainArgCopiesBytes longArg = some 151 ∧
    ¬ unsafe_string_copy longArg ≤ unsafe_copy_capacity := by
  have hlen : longArg.length = 150 := by simp [longArg]
  refine ⟨?_, ?_, ?_⟩
  · simp [unsafe_string_copy, hlen]
  · simp [mainArgCopiesBytes, unsafe_string_copy, hlen]
  · simp [unsafe_string_copy, unsafe_copy_capacity, hlen]

/-- C5 (amended): for every input longer than the 100-byte buffer, C main's
argument branch passes it to `unsafe_string_copy`, which copies the whole
input plus its NUL — strictly more than the buffer's capacity — and returns
no error. -/
theorem C5_prop (input : List Char) (h : unsafe_copy_capacity < input.length) :
    mainArgCopiesBytes input = some (input.length + 1) ∧
    unsafe_copy_capacity < unsafe_string_copy input := by
  have h100 : (100 : Nat) < input.length := by
    simpa [unsafe_copy_capacity] using h
  constructor
  · unfold mainArgCopiesBytes
    rw [if_pos h100]
    rfl
  · simp only [unsafe_string_copy, unsafe_copy_capacity]
    omega

/-- C5 witness: the amended statement at the concrete 150-byte argument. -/
theorem C5_witness :
    mainArgCopiesBytes longArg = some (longArg.length + 1) ∧
    unsafe_copy_capacity < unsafe_string_copy longArg :=
  C5_prop longArg (by simp [longArg, unsafe_copy_capacity])

/-! ### Claim C6: logging and format strings -/

/-- C6 counterexample: the claim that the logging routine emits the payload
as literal data regardless of `%` specifiers is false: both `log_message` (C)
and `logMessage` (C++) pass the payload to printf as the format string, so
for the payload "ab%%cd" the bytes written are "ab%cd", not the payload
itself. -/
theorem C6_counterexample :
    log_message "ab%%cd".data = .ok "ab%cd".data ∧
    logMessage "ab%%cd".data = .ok "ab%cd".data ∧
    "ab%cd".data ≠ "ab%%cd".data := by
  refine ⟨by decide, by decide, by decide⟩

/-- C6 (amended): `log_message`/`logMessage` pass the payload to printf as
its format string, so the payload is emitted verbatim only when it contains
no `%` byte; a payload containing `%` is interpreted (`%%` collapses to `%`,
any other directive reads a missing variadic argument — undefined
behaviour). -/
theorem C6_prop (payload : List Char) (h : ∀ c ∈ payload, c ≠ '%') :
    log_message payload = .ok payload ∧ logMessage payload = .ok payload :=
  ⟨printfNoArgs_no_percent payload h, printfNoArgs_no_percent payload h⟩

/-- C6 witness: the amended statement at a concrete percent-free payload. -/
theorem C6_witness :
    log_message "hello".data = .ok "hello".data ∧
    logMessage "hello".data = .ok "hello".data :=
  C6_prop "hello".data (by decide)

/-! ### Claim C7: timing of the secret comparison -/

/-- C7 counterexample: the claim that the secret comparison runs in time
independent of where the first differing byte occurs is false: for the two
equal-length wrong passwords "xdmin123" (differs from "admin123" at byte 0)
and "admin12x" (differs at byte 7), `strcmp` inside `authenticate_user`
performs 1 and 8 byte comparisons respectively. -/
theorem C7_counterexample :
    ("xdmin123".data).length = ("admin12x".data).length ∧
    authenticate_user_passwordSteps "xdmin123".data = 1 ∧
    authenticate_user_passwordSteps "admin12x".data = 8 ∧
    authenticate_user "admin".data "xdmin123".data = 0 ∧
    authenticate_user "admin".data "admin12x".data = 0 := by
  refine ⟨by decide, by decide, by decide, by decide, by decide⟩

/-- C7 (amended): `authenticate_user` compares secrets with `strcmp`, a
short-circuiting byte-wise comparison: for every provided password, the
number of byte comparisons spent on it is one more than the length of its
longest common prefix with the stored `admin_password` — the comparison time
depends on where the first differing byte occurs. -/
theorem C7_prop (password : List Char) :
    authenticate_user_passwordSteps password =
      commonPrefixLen password admin_password + 1 :=
  strcmpSteps_eq password admin_password

/-! ### Claim C8: searchUsers -/

/-- C8: for every query and every stored user list, searchUsers returns
exactly the stored user strings that contain the query as a substring (in
stored order, by a linear scan with `std::string::find`); the concatenated
SQL string is only built, never executed, and has no effect on the returned
results. -/
theorem C8_prop (users : List (List Char)) (query : List Char) :
    (searchUsers users query).2 =
      users.filter (fun u => (strFind query u).isSome) ∧
    ∀ u : List Char, u ∈ (searchUsers users query).2 ↔
      u ∈ users ∧ ∃ pre post : List Char, u = pre ++ query ++ post := by
  have hfold : (searchUsers users query).2 =
      users.filter (fun u => (strFind query u).isSome) := by
    simpa [searchUsers] using
      foldl_push_filter (fun u => (strFind query u).isSome) users []
  refine ⟨hfold, fun u => ?_⟩
  rw [hfold, List.mem_filter]
  constructor
  · rintro ⟨hu, hs⟩
    exact ⟨hu, (strFind_isSome_iff query u).1 hs⟩
  · rintro ⟨hu, hsub⟩
    exact ⟨hu, (strFind_isSome_iff query u).2 hsub⟩

/-! ### Claim C9: getUserData bounds checking -/

/-- C9: VulnerableDatabase::getUserData returns nullptr whenever the index
is negative or not less than the number of stored users, and otherwise
returns (a freshly allocated copy of) the user string at that index; it
never indexes out of bounds. -/
theorem C9_prop (users : List (List Char)) (index : Int) :
    ((index < 0 ∨ (users.length : Int) ≤ index) → getUserData users index = none) ∧
    (0 ≤ index → index < (users.length : Int) →
      getUserData users index = users[index.toNat]? ∧
      (users[index.toNat]?).isSome = true) := by
  constructor
  · intro h
    have hn : ¬ (0 ≤ index ∧ index < (users.length : Int)) := by
      rcases h with h | h <;> omega
    unfold getUserData
    rw [dif_neg hn]
  · intro h1 h2
    have hlt : index.toNat < users.length := by omega
    unfold getUserData
    rw [dif_pos ⟨h1, h2⟩, List.getElem?_eq_getElem hlt]
    exact ⟨by rw [List.get_eq_getElem], by simp⟩

/-- C9 witness: both branches at a concrete two-user store — index -1 is
rejected, index 1 yields the stored string. -/
theorem C9_witness :
    getUserData ["alice".data, "bob".data] (-1) = none ∧
    (getUserData ["alice".data, "bob".data] 1 =
      ["alice".data, "bob".data][(1 : Int).toNat]? ∧
      (["alice".data, "bob".data][(1 : Int).toNat]?).isSome = true) :=
  ⟨(C9_prop ["alice".data, "bob".data] (-1)).1 (Or.inl (by decide)),
   (C9_prop ["alice".data, "bob".data] 1).2 (by decide) (by decide)⟩

/-! ### Claim C10: authenticate_user functional behaviour -/

/-- C10: authenticate_user returns 1 exactly when the username is "admin"
and the password equals the hardcoded global admin_password "admin123"; for
every other pair it returns 0 (its result is a pure function of the two
arguments and that constant global). -/
theorem C10_prop (username password : List Char) :
    admin_password = "admin123".data ∧
    (authenticate_user username password = 1 ↔
      username = "admin".data ∧ password = "admin123".data) ∧
    (authenticate_user username password = 1 ∨
      authenticate_user username password = 0) := by
  refine ⟨rfl, ?_, ?_⟩
  · unfold authenticate_user
    by_cases h1 : username = "admin".data <;>
      by_cases h2 : password = "admin123".data <;>
        simp [h1, h2, strcmpEq_iff, admin_password]
  · unfold authenticate_user
    split
    · exact Or.inl rfl
    · exact Or.inr rfl
